import Mathlib

set_option maxHeartbeats 1000000

/- Shallow embedding of the leadmagic-mcp request/response marshalling layer:
   the structured error type and its classification (src/client.ts), the axios
   transport semantics the clients configure, the error-transformation
   interceptors of both client implementations (src/client.ts and the unnamed
   basic client in part_005), the zod request schemas (src/types.ts), and the
   MCP tool handlers and response formatters (src/server.ts). -/

/-- A JSON value. Numbers are modelled as integers: every number the embedded
code produces or inspects (status codes, page counters, credits) is integral. -/
inductive Json where
  | null : Json
  | bool (b : Bool) : Json
  | num (n : Int) : Json
  | str (s : String) : Json
  | arr (xs : List Json) : Json
  | obj (fields : List (String × Json)) : Json

/-- First binding of a key in a JS-object field list (JS property access). -/
def lookupField : List (String × Json) → String → Option Json
  | [], _ => none
  | (k1, v) :: rest, k => if k1 = k then some v else lookupField rest k

/-- JS property access `j[k]`: defined on objects, `undefined` (`none`) elsewhere. -/
def Json.getField : Json → String → Option Json
  | .obj fields, k => lookupField fields k
  | _, _ => none

/-- Reads a field as a string, `none` when absent or not a string. -/
def getStrOpt (j : Json) (k : String) : Option String :=
  match j.getField k with
  | some (.str s) => some s
  | _ => none

/-- Reads a field as a number, with a default when absent or not a number
(used to model the zod `.default(...)` fill-in after validation). -/
def getNumD (j : Json) (k : String) (d : Int) : Int :=
  match j.getField k with
  | some (.num n) => n
  | _ => d

/-- JS truthiness of a JSON value. -/
def jsTruthy : Json → Bool
  | .null => false
  | .bool b => b
  | .num n => n != 0
  | .str s => s != ""
  | .arr _ => true
  | .obj _ => true

/-- JS template-literal rendering of a possibly-absent value, as used in the
response summaries (`undefined` when the property is missing; the composite
renderings of arrays and objects are abstracted to their JS-style tags). -/
def jsDisplay : Option Json → String
  | none => "undefined"
  | some .null => "null"
  | some (.bool b) => if b then "true" else "false"
  | some (.num n) => toString n
  | some (.str s) => s
  | some (.arr _) => "[array]"
  | some (.obj _) => "[object Object]"

mutual

/-- Reference rendering of `JSON.stringify` used when formatting success
payloads (indentation and string escaping are abstracted; no claim inspects
this text). -/
def jsonStringify : Json → String
  | .null => "null"
  | .bool b => if b then "true" else "false"
  | .num n => toString n
  | .str s => "\"" ++ s ++ "\""
  | .arr xs => "[" ++ jsonStringifyArray xs ++ "]"
  | .obj fs => "\x7b" ++ jsonStringifyFields fs ++ "\x7d"

/-- Comma-joined stringification of a JSON array body. -/
def jsonStringifyArray : List Json → String
  | [] => ""
  | [x] => jsonStringify x
  | x :: y :: xs => jsonStringify x ++ "," ++ jsonStringifyArray (y :: xs)

/-- Comma-joined stringification of a JSON object body. -/
def jsonStringifyFields : List (String × Json) → String
  | [] => ""
  | [(k, v)] => "\"" ++ k ++ "\":" ++ jsonStringify v
  | (k, v) :: p :: fs => "\"" ++ k ++ "\":" ++ jsonStringify v ++ "," ++ jsonStringifyFields (p :: fs)

end

/-- The structured error of src/client.ts (`class LeadMagicError`): HTTP
status, API error code, message and the raw response payload. -/
structure LeadMagicError where
  status : Nat
  code : String
  message : String
  response : Option Json

/-- Whether this is a client error, src/client.ts `isClientError`:
`status >= 400 && status < 500`. -/
def LeadMagicError.isClientError (e : LeadMagicError) : Bool :=
  decide (400 ≤ e.status) && decide (e.status < 500)

/-- Whether this is a server error, src/client.ts `isServerError`:
`status >= 500 && status < 600`. -/
def LeadMagicError.isServerError (e : LeadMagicError) : Bool :=
  decide (500 ≤ e.status) && decide (e.status < 600)

/-- Whether this is a network error, src/client.ts `isNetworkError`:
`status === 0`. -/
def LeadMagicError.isNetworkError (e : LeadMagicError) : Bool :=
  decide (e.status = 0)

/-- The four classes the spec assigns to a structured error. -/
inductive ErrorClass where
  | client : ErrorClass
  | server : ErrorClass
  | network : ErrorClass
  | unknown : ErrorClass
deriving DecidableEq, Repr, BEq

/-- Classification of a structured error by its three predicates, in the
order src/server.ts `handleError` tests them; `unknown` when none holds. -/
def classify (e : LeadMagicError) : ErrorClass :=
  if e.isClientError then .client
  else if e.isServerError then .server
  else if e.isNetworkError then .network
  else .unknown

/-- JS `x || fallback` on an optionally-present string field (falls back on
a missing field and on the falsy empty string). -/
def jsOrString (v : Option String) (fallback : String) : String :=
  match v with
  | some s => if s == "" then fallback else s
  | none => fallback

/-- The shapes of values thrown inside a client call that reach the error
interceptor: an axios error carrying a received response, an axios error
where the request was sent but no response arrived, an axios
request-construction error, a plain JS `Error`, and any other thrown value. -/
inductive ThrownError where
  | axiosResponse (status : Nat) (data : Json) (message : String) : ThrownError
  | axiosNoResponse (message : String) : ThrownError
  | axiosSetup (message : String) : ThrownError
  | jsError (message : String) : ThrownError
  | nonError : ThrownError

/-- src/client.ts `transformError`: normalizes any thrown value into a
`LeadMagicError`. Field reads `data?.error` / `data?.message` are modelled as
string-valued (the axios error is typed `AxiosError<{error?: string; message?: string}>`). -/
def transformError : ThrownError → LeadMagicError
  | .axiosResponse status data message =>
      ⟨status, jsOrString (getStrOpt data "error") "API_ERROR",
        jsOrString (getStrOpt data "message") (jsOrString (some message) "Request failed"),
        some data⟩
  | .axiosNoResponse _ =>
      ⟨0, "NETWORK_ERROR", "Network error occurred - please check your connection", none⟩
  | .axiosSetup message =>
      ⟨0, "REQUEST_ERROR", jsOrString (some message) "Request configuration error", none⟩
  | .jsError message => ⟨500, "UNKNOWN_ERROR", message, none⟩
  | .nonError => ⟨500, "UNKNOWN_ERROR", "Unknown error occurred", none⟩

/-- The response interceptor of the basic client (part_005, `LeadMagicClient`
constructor): `error.response` branch, `error.request` branch, and the
fallback that throws `LeadMagicError(0, 'UNKNOWN_ERROR', error.message)`. -/
def basicTransformError : ThrownError → LeadMagicError
  | .axiosResponse status data message =>
      ⟨status, jsOrString (getStrOpt data "error") "API_ERROR",
        jsOrString (getStrOpt data "message") message, some data⟩
  | .axiosNoResponse _ => ⟨0, "NETWORK_ERROR", "Network error occurred", none⟩
  | .axiosSetup message => ⟨0, "UNKNOWN_ERROR", message, none⟩
  | .jsError message => ⟨0, "UNKNOWN_ERROR", message, none⟩
  | .nonError => ⟨0, "UNKNOWN_ERROR", "", none⟩

/-- What the transport did for one request: delivered a response with a
status and a (parsed) body, made the request but got no response, or failed
while constructing the request. -/
inductive TransportOutcome where
  | response (status : Nat) (data : Json) : TransportOutcome
  | noResponse : TransportOutcome
  | setupFailure (message : String) : TransportOutcome

/-- The axios instance configuration relevant here, as produced by
`axios.create` in both clients. -/
structure AxiosConfig where
  baseURL : String
  timeout : Int
  headers : List (String × String)
  validateStatus : Nat → Bool

/-- Axios settlement semantics: a received response fulfills when
`validateStatus` accepts its status and otherwise rejects with an axios error
carrying the response (message `Request failed with status code N`); a
no-response failure rejects with an axios error carrying only the request;
a setup failure rejects with an axios error carrying neither. -/
def axiosSettle (vs : Nat → Bool) : TransportOutcome → Except ThrownError (Nat × Json)
  | .response status data =>
      if vs status then .ok (status, data)
      else .error (.axiosResponse status data ("Request failed with status code " ++ toString status))
  | .noResponse => .error (.axiosNoResponse "Network Error")
  | .setupFailure m => .error (.axiosSetup m)

/-- Client configuration options (src/types.ts `LeadMagicConfig`). -/
structure LeadMagicConfig where
  apiKey : String
  baseUrl : Option String
  timeout : Option Int

/-- JS `config.baseUrl || 'https://api.leadmagic.io'`. -/
def resolveBaseUrl (c : LeadMagicConfig) : String :=
  jsOrString c.baseUrl "https://api.leadmagic.io"

/-- JS `config.timeout || 30000` (falsy zero falls back). -/
def resolveTimeout (c : LeadMagicConfig) : Int :=
  match c.timeout with
  | some t => if t == 0 then 30000 else t
  | none => 30000

/-- src/client.ts `createHttpClient`: base URL, timeout, auth and JSON
headers, and the `validateStatus` override accepting every status below 600. -/
def createHttpClient (c : LeadMagicConfig) : AxiosConfig :=
  { baseURL := resolveBaseUrl c
    timeout := resolveTimeout c
    headers := [("X-API-Key", c.apiKey), ("Content-Type", "application/json"),
                ("Accept", "application/json"), ("User-Agent", "leadmagic-mcp-server/1.0.0")]
    validateStatus := fun status => decide (status < 600) }

/-- The axios default `validateStatus` (accept 2xx only); part_005 does not
override it in its `axios.create` call. -/
def axiosDefaultValidateStatus (status : Nat) : Bool :=
  decide (200 ≤ status) && decide (status < 300)

/-- The axios instance built by the basic client (part_005 constructor):
same base URL, timeout and headers, but no `validateStatus` override. -/
def basicCreateHttpClient (c : LeadMagicConfig) : AxiosConfig :=
  { baseURL := jsOrString c.baseUrl "https://api.leadmagic.io"
    timeout := resolveTimeout c
    headers := [("X-API-Key", c.apiKey), ("Content-Type", "application/json"),
                ("Accept", "application/json"), ("User-Agent", "leadmagic-mcp-server/1.0.0")]
    validateStatus := axiosDefaultValidateStatus }

/-- The resolved state of the enhanced client (src/client.ts fields
`apiKey`, `baseUrl`, `timeout`). -/
structure LeadMagicClientState where
  apiKey : String
  baseUrl : String
  timeout : Int

/-- src/client.ts constructor field resolution. -/
def LeadMagicClientState.ofConfig (c : LeadMagicConfig) : LeadMagicClientState :=
  ⟨c.apiKey, resolveBaseUrl c, resolveTimeout c⟩

/-- src/client.ts `getConfig`: reports base URL and timeout, and masks the
API key to its first 8 characters followed by an ellipsis. -/
def getConfig (s : LeadMagicClientState) : LeadMagicConfig :=
  ⟨s.apiKey.take 8 ++ "...", some s.baseUrl, some s.timeout⟩

/-- One HTTP request handed to the transport. -/
structure HttpRequest where
  method : String
  url : String
  headers : List (String × String)
  body : Json

/-- A transport: what happens on the wire for a given request. -/
def Transport := HttpRequest → TransportOutcome

/-- The request built by `this.client.post(path, body)`. -/
def clientPost (cfg : AxiosConfig) (path : String) (body : Json) : HttpRequest :=
  ⟨"POST", path, cfg.headers, body⟩

/-- Settlement of one client call through the response interceptor: a
fulfilled response passes its data through, a rejection is normalized by the
given error transform. -/
def runInterceptors (cfg : AxiosConfig) (transform : ThrownError → LeadMagicError)
    (outcome : TransportOutcome) : Except LeadMagicError Json :=
  match axiosSettle cfg.validateStatus outcome with
  | .ok (_, data) => .ok data
  | .error e => .error (transform e)

/-- One call of the enhanced client (src/client.ts): axios with its
`validateStatus` override, errors normalized by `transformError`. -/
def performRequest (cfg : AxiosConfig) (t : Transport) (req : HttpRequest) :
    Except LeadMagicError Json :=
  runInterceptors cfg transformError (t req)

/-- One call of the basic client (part_005): axios default settlement,
errors normalized by its inline interceptor. -/
def basicPerformRequest (cfg : AxiosConfig) (t : Transport) (req : HttpRequest) :
    Except LeadMagicError Json :=
  runInterceptors cfg basicTransformError (t req)

/-- One field-level zod validation issue (path and message). -/
structure ZodIssue where
  path : String
  message : String
deriving DecidableEq, Repr

/-- A zod parse failure: the collected issues. -/
structure ZodError where
  issues : List ZodIssue
deriving DecidableEq, Repr

/-- Rendering of a ZodError into its `Error.message` (zod pretty-prints the
issue list; the exact layout is abstracted, only the text is threaded through
to the error formatter). -/
def zodMessage (e : ZodError) : String :=
  String.intercalate "; " (e.issues.map (fun i => i.path ++ ": " ++ i.message))

/-- Abstraction of the zod `z.string().email()` format check: a single `@`
separating a nonempty local part from a dotted, nonempty domain. No claim
depends on the exact regex. -/
def zodEmailCheck (s : String) : Bool :=
  match s.split (· == '@') with
  | [localPart, domain] =>
      localPart != "" && domain != "" && domain.contains '.' &&
        !domain.startsWith "." && !domain.endsWith "."
  | _ => false

/-- Abstraction of the zod `z.string().url()` check (`new URL` parse): an
http or https scheme followed by a nonempty rest. No claim depends on the
exact parser. -/
def zodUrlCheck (s : String) : Bool :=
  (s.startsWith "http://" && s.length > 7) || (s.startsWith "https://" && s.length > 8)

/-- src/types.ts `EmailValidationRequest`: required email, optional names. -/
structure EmailValidationRequest where
  email : String
  first_name : Option String
  last_name : Option String
deriving DecidableEq, Repr

/-- src/types.ts `JobsFinderRequest`: all filters optional, pagination with
defaults (`page` min 1 default 1, `per_page` min 1 max 50 default 20). -/
structure JobsFinderRequest where
  company_name : Option String
  company_website : Option String
  job_title : Option String
  location : Option String
  experience_level : Option String
  job_description : Option String
  country_id : Option String
  page : Int
  per_page : Int
deriving DecidableEq, Repr

/-- src/types.ts `EmployeeFinderRequest`: required company name plus the
same pagination fields as the jobs finder. -/
structure EmployeeFinderRequest where
  company_name : String
  page : Int
  per_page : Int
deriving DecidableEq, Repr

/-- src/types.ts `PersonalEmailFinderRequest`: required profile URL. -/
structure PersonalEmailFinderRequest where
  profile_url : String
deriving DecidableEq, Repr

/-- Emits one optional string field, omitted when absent (JSON.stringify
drops `undefined` properties, and zod-parsed objects omit absent optionals). -/
def optField (k : String) (v : Option String) : List (String × Json) :=
  match v with
  | none => []
  | some s => [(k, Json.str s)]

/-- The JSON object a validated `EmailValidationRequest` serializes to. -/
def encodeEmailValidationRequest (r : EmailValidationRequest) : Json :=
  Json.obj ([("email", Json.str r.email)] ++
    optField "first_name" r.first_name ++ optField "last_name" r.last_name)

/-- Reads an `EmailValidationRequest` back out of a JSON object. -/
def decodeEmailValidationRequest (j : Json) : Option EmailValidationRequest :=
  match j.getField "email" with
  | some (.str e) => some ⟨e, getStrOpt j "first_name", getStrOpt j "last_name"⟩
  | _ => none

/-- The JSON object a validated `JobsFinderRequest` serializes to (fields in
declaration order, absent optionals omitted, pagination always present after
the zod defaults). -/
def encodeJobsFinderRequest (r : JobsFinderRequest) : Json :=
  Json.obj (optField "company_name" r.company_name ++
    optField "company_website" r.company_website ++
    optField "job_title" r.job_title ++
    optField "location" r.location ++
    optField "experience_level" r.experience_level ++
    optField "job_description" r.job_description ++
    optField "country_id" r.country_id ++
    [("page", Json.num r.page), ("per_page", Json.num r.per_page)])

/-- Reads a `JobsFinderRequest` back out of a JSON object. -/
def decodeJobsFinderRequest (j : Json) : Option JobsFinderRequest :=
  match j.getField "page", j.getField "per_page" with
  | some (.num p), some (.num pp) =>
      some ⟨getStrOpt j "company_name", getStrOpt j "company_website",
        getStrOpt j "job_title", getStrOpt j "location",
        getStrOpt j "experience_level", getStrOpt j "job_description",
        getStrOpt j "country_id", p, pp⟩
  | _, _ => none

/-- The JSON object a validated `PersonalEmailFinderRequest` serializes to. -/
def encodePersonalEmailFinderRequest (r : PersonalEmailFinderRequest) : Json :=
  Json.obj [("profile_url", Json.str r.profile_url)]

/-- Issue for a field that must be a string when present. -/
def optStrIssue (j : Json) (k : String) : List ZodIssue :=
  match j.getField k with
  | none => []
  | some (.str _) => []
  | some _ => [⟨k, "Expected string"⟩]

/-- Issue for a required string field. -/
def reqStrIssue (j : Json) (k : String) : List ZodIssue :=
  match j.getField k with
  | none => [⟨k, "Required"⟩]
  | some (.str _) => []
  | some _ => [⟨k, "Expected string"⟩]

/-- Issues of the `page` field: `z.number().min(1).default(1)`. -/
def pageIssue (j : Json) (k : String) : List ZodIssue :=
  match j.getField k with
  | none => []
  | some (.num n) => if n < 1 then [⟨k, "Number must be greater than or equal to 1"⟩] else []
  | some _ => [⟨k, "Expected number"⟩]

/-- Issues of the `per_page` field: `z.number().min(1).max(50).default(20)`. -/
def perPageIssue (j : Json) (k : String) : List ZodIssue :=
  match j.getField k with
  | none => []
  | some (.num n) =>
      (if n < 1 then [⟨k, "Number must be greater than or equal to 1"⟩] else []) ++
        (if 50 < n then [⟨k, "Number must be less than or equal to 50"⟩] else [])
  | some _ => [⟨k, "Expected number"⟩]

/-- Field issues of `EmailValidationRequestSchema` (src/types.ts): required
email with format check, optional name strings. -/
def emailValidationIssues (j : Json) : List ZodIssue :=
  (match j.getField "email" with
   | none => [⟨"email", "Required"⟩]
   | some (.str s) => if zodEmailCheck s then [] else [⟨"email", "Invalid email"⟩]
   | some _ => [⟨"email", "Expected string"⟩]) ++
    optStrIssue j "first_name" ++ optStrIssue j "last_name"

/-- `EmailValidationRequestSchema.parse` (zod object semantics: reject
non-objects, collect field issues, strip unknown keys, return the typed
record on success). -/
def emailValidationParse (j : Json) : Except ZodError EmailValidationRequest :=
  match j with
  | .obj _ =>
      match emailValidationIssues j with
      | [] => .ok ⟨(getStrOpt j "email").getD "",
          getStrOpt j "first_name", getStrOpt j "last_name"⟩
      | issues => .error ⟨issues⟩
  | _ => .error ⟨[⟨"", "Expected object"⟩]⟩

/-- Field issues of `JobsFinderRequestSchema` (src/types.ts lines 439-458). -/
def jobsFinderIssues (j : Json) : List ZodIssue :=
  optStrIssue j "company_name" ++ optStrIssue j "company_website" ++
    optStrIssue j "job_title" ++ optStrIssue j "location" ++
    (match j.getField "experience_level" with
     | none => []
     | some (.str s) =>
         if ["entry", "mid", "senior", "executive"].contains s then []
         else [⟨"experience_level", "Invalid enum value"⟩]
     | some _ => [⟨"experience_level", "Expected string"⟩]) ++
    optStrIssue j "job_description" ++ optStrIssue j "country_id" ++
    pageIssue j "page" ++ perPageIssue j "per_page"

/-- `JobsFinderRequestSchema.parse`: on success the pagination defaults
(`page` 1, `per_page` 20) fill absent fields. -/
def jobsFinderParse (j : Json) : Except ZodError JobsFinderRequest :=
  match j with
  | .obj _ =>
      match jobsFinderIssues j with
      | [] => .ok ⟨getStrOpt j "company_name", getStrOpt j "company_website",
          getStrOpt j "job_title", getStrOpt j "location",
          getStrOpt j "experience_level", getStrOpt j "job_description",
          getStrOpt j "country_id", getNumD j "page" 1, getNumD j "per_page" 20⟩
      | issues => .error ⟨issues⟩
  | _ => .error ⟨[⟨"", "Expected object"⟩]⟩

/-- Field issues of `EmployeeFinderRequestSchema` (src/types.ts lines 583-590). -/
def employeeFinderIssues (j : Json) : List ZodIssue :=
  reqStrIssue j "company_name" ++ pageIssue j "page" ++ perPageIssue j "per_page"

/-- `EmployeeFinderRequestSchema.parse`: required company name, pagination
defaults as in the jobs finder. -/
def employeeFinderParse (j : Json) : Except ZodError EmployeeFinderRequest :=
  match j with
  | .obj _ =>
      match employeeFinderIssues j with
      | [] => .ok ⟨(getStrOpt j "company_name").getD "",
          getNumD j "page" 1, getNumD j "per_page" 20⟩
      | issues => .error ⟨issues⟩
  | _ => .error ⟨[⟨"", "Expected object"⟩]⟩

/-- `PersonalEmailFinderRequestSchema.parse`: required profile URL with
format check. -/
def personalEmailFinderParse (j : Json) : Except ZodError PersonalEmailFinderRequest :=
  match j with
  | .obj _ =>
      match j.getField "profile_url" with
      | none => .error ⟨[⟨"profile_url", "Required"⟩]⟩
      | some (.str s) =>
          if zodUrlCheck s then .ok ⟨s⟩ else .error ⟨[⟨"profile_url", "Invalid url"⟩]⟩
      | some _ => .error ⟨[⟨"profile_url", "Expected string"⟩]⟩
  | _ => .error ⟨[⟨"", "Expected object"⟩]⟩

/-- One MCP content block (`{type: 'text', text}`). -/
structure ContentBlock where
  type : String
  text : String
deriving DecidableEq, Repr

/-- The MCP tool response shape of src/server.ts (`MCPToolResponse`). -/
structure MCPToolResponse where
  content : List ContentBlock
deriving DecidableEq, Repr

/-- The server state visible to the tool handlers and formatters (the
`LeadMagicMCPServer` instance fields the embedded methods could touch). -/
structure ServerCtx where
  apiKey : String
deriving DecidableEq, Repr

/-- The axios configuration of the client the server constructs
(`new LeadMagicClient({apiKey})`). -/
def serverCfg (ctx : ServerCtx) : AxiosConfig :=
  createHttpClient ⟨ctx.apiKey, none, none⟩

/-- JS `[..].filter(Boolean).join('')` on strings: drop the falsy empty
strings and concatenate the rest. -/
def joinTruthy (parts : List String) : String :=
  String.join (parts.filter (fun s => s != ""))

/-- src/server.ts `formatSuccessResponse`: check mark line, optional summary
line, optional serialized payload, joined after dropping empty pieces. -/
def formatSuccessResponse (_ctx : ServerCtx) (message : String) (data : Option Json)
    (summary : Option String) : MCPToolResponse :=
  let responseText := joinTruthy [
    "✅ " ++ message,
    (match summary with
     | some s => if s == "" then "" else "\n📊 " ++ s
     | none => ""),
    (match data with
     | some d =>
         if jsTruthy d then
           "\n\n📋 **Detailed Results:**\n```json\n" ++ jsonStringify d ++ "\n```"
         else ""
     | none => "")]
  ⟨[⟨"text", responseText⟩]⟩

/-- The shapes a value caught by a tool handler can have, as src/server.ts
`handleError` distinguishes them: a `LeadMagicError`, a plain JS `Error`
(with its `name` and `message`), or anything else. -/
inductive CaughtError where
  | leadMagic (e : LeadMagicError) : CaughtError
  | jsError (name : String) (message : String) : CaughtError
  | other : CaughtError

/-- The troubleshooting guidance src/server.ts `handleError` attaches to a
`LeadMagicError` by status class: credential guidance for 401, rate-limit
guidance for 429, parameter guidance for 400, a generic 4xx fallback,
retry-later guidance for 5xx, connectivity guidance for network errors, and
no guidance otherwise. -/
def troubleshootingFor (e : LeadMagicError) : String :=
  if e.isClientError then
    if e.status = 401 then
      "🔧 **Troubleshooting:** Please check your API key is valid and has sufficient permissions."
    else if e.status = 429 then
      "🔧 **Troubleshooting:** Rate limit exceeded. Please wait a moment before making more requests."
    else if e.status = 400 then
      "🔧 **Troubleshooting:** Please check that all required parameters are provided and valid."
    else
      "🔧 **Troubleshooting:** Please verify your request parameters and try again."
  else if e.isServerError then
    "🔧 **Troubleshooting:** LeadMagic server error. Please try again in a few moments."
  else if e.isNetworkError then
    "🔧 **Troubleshooting:** Network connectivity issue. Please check your internet connection."
  else ""

/-- src/server.ts `handleError`: message, details and troubleshooting
guidance per error shape and status class, joined with the help footer after
dropping empty pieces. -/
def handleError (_ctx : ServerCtx) (err : CaughtError) : MCPToolResponse :=
  let parts :=
    match err with
    | .leadMagic e =>
        ("❌ LeadMagic API Error: " ++ e.message,
          "**Error Code:** " ++ e.code ++ "\n**Status:** " ++ toString e.status,
          troubleshootingFor e)
    | .jsError name message =>
        ("❌ Error: " ++ message, "**Type:** " ++ name,
          "🔧 **Troubleshooting:** Please check your input parameters and try again.")
    | .other =>
        ("❌ An unknown error occurred", "**Type:** Unknown",
          "🔧 **Troubleshooting:** Please try again or contact support if the issue persists.")
  let responseText := joinTruthy [
    parts.1,
    (if parts.2.1 = "" then "" else "\n" ++ parts.2.1),
    (if parts.2.2 = "" then "" else "\n\n" ++ parts.2.2),
    "\n\n💡 **Need Help?** Visit: https://github.com/LeadMagic/leadmagic-mcp/issues"]
  ⟨[⟨"text", responseText⟩]⟩

/-- Text of the first content block of a response. -/
def firstText (r : MCPToolResponse) : String :=
  match r.content.head? with
  | some b => b.text
  | none => ""

/-- A response is well formed when it is a single text content block. -/
def wellFormed (r : MCPToolResponse) : Bool :=
  r.content.length == 1 && r.content.all (fun b => b.type == "text")

/-- The `get_credits` tool handler (src/server.ts `setupCreditsTools`):
posts `/credits` with an empty body, renders the credits count on success,
routes any failure through `handleError`. The `result.credits` property read
throws a `TypeError` when the payload lacks a numeric `credits` field, which
the surrounding try/catch also routes to `handleError`. -/
def getCreditsTool (ctx : ServerCtx) (t : Transport) : MCPToolResponse × List HttpRequest :=
  let req := clientPost (serverCfg ctx) "/credits" (Json.obj [])
  match performRequest (serverCfg ctx) t req with
  | .ok result =>
      match result.getField "credits" with
      | some (Json.num n) =>
          (formatSuccessResponse ctx ("Available credits: " ++ toString n)
            (some (Json.obj [("credits", Json.num n)])) none, [req])
      | _ => (handleError ctx (.jsError "TypeError" "Cannot read properties of undefined"), [req])
  | .error e => (handleError ctx (.leadMagic e), [req])

/-- The `validate_email` tool handler (src/server.ts `setupEmailTools`):
parses the parameters with `EmailValidationRequestSchema` first — a parse
failure throws a `ZodError` which the catch block hands to `handleError`
before any request is built — then posts the validated request. -/
def validateEmailTool (ctx : ServerCtx) (t : Transport) (params : Json) :
    MCPToolResponse × List HttpRequest :=
  match emailValidationParse params with
  | .error zerr => (handleError ctx (.jsError "ZodError" (zodMessage zerr)), [])
  | .ok validated =>
      let req := clientPost (serverCfg ctx) "/email-validate" (encodeEmailValidationRequest validated)
      match performRequest (serverCfg ctx) t req with
      | .ok result =>
          (formatSuccessResponse ctx
            ("Email validation completed for " ++ jsDisplay (result.getField "email"))
            (some result)
            (some ("Status: " ++ jsDisplay (result.getField "email_status") ++
              ", Credits used: " ++ jsDisplay (result.getField "credits_consumed"))), [req])
      | .error e => (handleError ctx (.leadMagic e), [req])

/-- The `find_personal_email` tool handler (src/server.ts `setupEmailTools`,
lines 207-227): no parse call — the incoming parameters are forwarded to
`client.findPersonalEmail` as they are. -/
def findPersonalEmailTool (ctx : ServerCtx) (t : Transport) (params : Json) :
    MCPToolResponse × List HttpRequest :=
  let req := clientPost (serverCfg ctx) "/personal-email-finder" params
  match performRequest (serverCfg ctx) t req with
  | .ok result =>
      (formatSuccessResponse ctx "Personal email search completed" (some result)
        (some ("Status: " ++ jsDisplay (result.getField "status") ++
          ", Credits used: " ++ jsDisplay (result.getField "credits_consumed"))), [req])
  | .error e => (handleError ctx (.leadMagic e), [req])

/-- Modelled from the MCP SDK dependency (`McpServer.registerTool`): the
runtime parses the raw arguments against the registered input schema and
answers with a validation error itself, without invoking the handler, when
the parse fails. -/
def sdkValidationErrorResponse (zerr : ZodError) : MCPToolResponse :=
  ⟨[⟨"text", "Invalid arguments: " ++ zodMessage zerr⟩]⟩

/-- A full MCP invocation of `find_personal_email`: the SDK layer validates
against the registered `PersonalEmailFinderRequestSchema.shape` and only
then invokes the handler with the parsed parameters. -/
def invokePersonalEmailTool (ctx : ServerCtx) (t : Transport) (raw : Json) :
    MCPToolResponse × List HttpRequest :=
  match personalEmailFinderParse raw with
  | .error zerr => (sdkValidationErrorResponse zerr, [])
  | .ok validated => findPersonalEmailTool ctx t (encodePersonalEmailFinderRequest validated)

/-- src/client.ts `validateEmail`: posts the request object unchanged to
`/email-validate`. -/
def clientValidateEmailRequest (cfg : AxiosConfig) (r : EmailValidationRequest) : HttpRequest :=
  clientPost cfg "/email-validate" (encodeEmailValidationRequest r)

/-- src/client.ts `findJobs`: posts the request object unchanged to
`/jobs-finder`. -/
def clientFindJobsRequest (cfg : AxiosConfig) (r : JobsFinderRequest) : HttpRequest :=
  clientPost cfg "/jobs-finder" (encodeJobsFinderRequest r)

/-- A sample JSON error body as the remote API sends it on a failed call. -/
def sampleErrorBody : Json :=
  Json.obj [("error", Json.str "NOT_FOUND"), ("message", Json.str "Resource not found")]

/-- A sample client configuration with only the API key set. -/
def testConfig : LeadMagicConfig := ⟨"test-api-key", none, none⟩

/-- The text `sub` occurs verbatim inside `text`. -/
def mentions (text sub : String) : Prop :=
  ∃ pre post, text = pre ++ sub ++ post

/- Helper lemmas about string concatenation and `joinTruthy`. -/

theorem strAppend_ne_empty (s t : String) (h : s ≠ "") : s ++ t ≠ "" := by
  cases s with
  | mk sd =>
    cases t with
    | mk td =>
      intro hc
      apply h
      have hdata : sd ++ td = [] := congrArg String.data hc
      rcases List.append_eq_nil.mp hdata with ⟨h1, _⟩
      simp [h1]

theorem strFoldl_append (l : List String) (acc : String) :
    l.foldl (fun r s => r ++ s) acc = acc ++ l.foldl (fun r s => r ++ s) "" := by
  induction l generalizing acc with
  | nil => simp [List.foldl, String.append_empty]
  | cons s t ih =>
    simp only [List.foldl]
    rw [ih (acc ++ s), ih ("" ++ s)]
    have he : ("" : String) ++ s = s := rfl
    rw [he, String.append_assoc]

theorem strJoin_cons (s : String) (l : List String) :
    String.join (s :: l) = s ++ String.join l := by
  simp only [String.join, List.foldl]
  rw [strFoldl_append l ("" ++ s)]
  rfl

theorem joinTruthy_eq_join (l : List String) : joinTruthy l = String.join l := by
  induction l with
  | nil => rfl
  | cons s t ih =>
    by_cases h : s = ""
    · subst h
      have hf : joinTruthy ("" :: t) = joinTruthy t := by
        simp [joinTruthy, List.filter]
      rw [hf, ih, strJoin_cons]
      rfl
    · have hb : (s != "") = true := by simpa using h
      have hf : joinTruthy (s :: t) = s ++ joinTruthy t := by
        simp only [joinTruthy, List.filter, hb]
        exact strJoin_cons s _
      rw [hf, ih, strJoin_cons]

theorem joinTruthy_four (a b c d : String) :
    joinTruthy [a, b, c, d] = a ++ (b ++ (c ++ d)) := by
  rw [joinTruthy_eq_join, strJoin_cons, strJoin_cons, strJoin_cons, strJoin_cons]
  simp [String.join, String.append_empty]

theorem mentions_here (pre sub post : String) : mentions (pre ++ sub ++ post) sub :=
  ⟨pre, post, rfl⟩

theorem mentions_left (a : String) {t sub : String} (h : mentions t sub) :
    mentions (a ++ t) sub := by
  rcases h with ⟨pre, post, h1⟩
  exact ⟨a ++ pre, post, by rw [h1]; simp [String.append_assoc]⟩

theorem mentions_right (b : String) {t sub : String} (h : mentions t sub) :
    mentions (t ++ b) sub := by
  rcases h with ⟨pre, post, h1⟩
  refine ⟨pre, post ++ b, ?_⟩
  rw [h1]; simp [String.append_assoc]

theorem mentions_of_eq {t u sub : String} (h : t = u) (hm : mentions u sub) :
    mentions t sub := h ▸ hm

/-- C1: the enhanced client (src/client.ts), whose `createHttpClient` sets
`validateStatus` to accept every status below 600, fulfills a 404 response
and hands the JSON error body back as a success payload for every request —
the response-error interceptor and `transformError` never run for a non-2xx
status below 600 — whereas the basic client (part_005), which keeps the axios
default `validateStatus`, rejects the same response with a `LeadMagicError`
carrying the remote status and the `error`/`message` fields of the body, as
the claim demands. -/
theorem non2xxResponse_returnedAsSuccess :
    (∀ req : HttpRequest,
        performRequest (createHttpClient testConfig)
          (fun _ => .response 404 sampleErrorBody) req = .ok sampleErrorBody)
  ∧ basicPerformRequest (basicCreateHttpClient testConfig)
      (fun _ => .response 404 sampleErrorBody)
      (clientPost (basicCreateHttpClient testConfig) "/email-validate" (Json.obj []))
      = .error ⟨404, "NOT_FOUND", "Resource not found", some sampleErrorBody⟩ :=
  ⟨fun _ => rfl, rfl⟩

/-- C3: a transport failure with no response is normalized by both clients
into a structured error with status sentinel 0 and code `NETWORK_ERROR`,
which classifies as a network error, for every request. -/
theorem noResponse_networkError :
    (∀ req : HttpRequest,
        performRequest (createHttpClient testConfig) (fun _ => .noResponse) req
          = .error ⟨0, "NETWORK_ERROR",
              "Network error occurred - please check your connection", none⟩)
  ∧ (∀ req : HttpRequest,
        basicPerformRequest (basicCreateHttpClient testConfig) (fun _ => .noResponse) req
          = .error ⟨0, "NETWORK_ERROR", "Network error occurred", none⟩)
  ∧ LeadMagicError.isNetworkError
      ⟨0, "NETWORK_ERROR", "Network error occurred - please check your connection", none⟩ = true
  ∧ LeadMagicError.isNetworkError ⟨0, "NETWORK_ERROR", "Network error occurred", none⟩ = true :=
  ⟨fun _ => rfl, fun _ => rfl, rfl, rfl⟩

/-- C4 counterexample: a request-construction failure is transformed into a
status-0 error, so it classifies as a network error, and a thrown non-axios
`Error` is transformed into a status-500 error, so it classifies as a server
error — neither is classified as unknown as the claim states. -/
theorem setupFailure_not_unknown_counterexample :
    (transformError (.axiosSetup "boom")).isNetworkError = true
  ∧ (transformError (.jsError "boom")).isServerError = true :=
  ⟨rfl, rfl⟩

/-- C4 (amended): failures that are neither a received response nor a
no-response transport failure are normalized as follows — a
request-construction error becomes status 0 with code `REQUEST_ERROR` and
classifies as a network error, while a thrown non-axios value becomes status
500 with code `UNKNOWN_ERROR` and classifies as a server error; the unknown
category is signalled only through the code string, never through the
status-based classifiers. -/
theorem otherFailures_statusCodes (msg : String) :
    transformError (.axiosSetup msg)
      = ⟨0, "REQUEST_ERROR", jsOrString (some msg) "Request configuration error", none⟩
  ∧ classify (transformError (.axiosSetup msg)) = .network
  ∧ transformError (.jsError msg) = ⟨500, "UNKNOWN_ERROR", msg, none⟩
  ∧ classify (transformError (.jsError msg)) = .server
  ∧ transformError .nonError = ⟨500, "UNKNOWN_ERROR", "Unknown error occurred", none⟩
  ∧ classify (transformError .nonError) = .server :=
  ⟨rfl, rfl, rfl, rfl, rfl, rfl⟩

/-- C5: for every structured error the three classifiers are pairwise
exclusive, and the error classifies as unknown exactly when all three
return false. -/
theorem errorClassification_exclusive (e : LeadMagicError) :
    (e.isClientError && e.isServerError) = false
  ∧ (e.isClientError && e.isNetworkError) = false
  ∧ (e.isServerError && e.isNetworkError) = false
  ∧ ((classify e == ErrorClass.unknown)
      = (!e.isClientError && !e.isServerError && !e.isNetworkError)) := by
  rcases e with ⟨s, c, m, r⟩
  refine ⟨?_, ?_, ?_, ?_⟩
  · simp only [LeadMagicError.isClientError, LeadMagicError.isServerError,
      Bool.and_eq_false_iff, decide_eq_false_iff_not]
    omega
  · simp only [LeadMagicError.isClientError, LeadMagicError.isNetworkError,
      Bool.and_eq_false_iff, decide_eq_false_iff_not]
    omega
  · simp only [LeadMagicError.isServerError, LeadMagicError.isNetworkError,
      Bool.and_eq_false_iff, decide_eq_false_iff_not]
    omega
  · cases h1 : (⟨s, c, m, r⟩ : LeadMagicError).isClientError <;>
      cases h2 : (⟨s, c, m, r⟩ : LeadMagicError).isServerError <;>
      cases h3 : (⟨s, c, m, r⟩ : LeadMagicError).isNetworkError <;>
      simp [classify, h1, h2, h3] <;> rfl

/-- C8: for each of the two cited operations, the HTTP request body handed to
the transport is exactly the serialized validated request object, and
decoding that body recovers the validated object unchanged — no field is
added, dropped, or coerced. -/
theorem requestBody_roundTrip :
    (∀ (cfg : AxiosConfig) (r : EmailValidationRequest),
        (clientValidateEmailRequest cfg r).body = encodeEmailValidationRequest r
          ∧ decodeEmailValidationRequest (encodeEmailValidationRequest r) = some r)
  ∧ (∀ (cfg : AxiosConfig) (r : JobsFinderRequest),
        (clientFindJobsRequest cfg r).body = encodeJobsFinderRequest r
          ∧ decodeJobsFinderRequest (encodeJobsFinderRequest r) = some r) := by
  constructor
  · intro cfg r
    refine ⟨rfl, ?_⟩
    rcases r with ⟨e, f, l⟩
    cases f <;> cases l <;> rfl
  · intro cfg r
    refine ⟨rfl, ?_⟩
    rcases r with ⟨cn, w, jt, lo, x, jd, ci, p, pp⟩
    cases cn <;> cases w <;> cases jt <;> cases lo <;> cases x <;> cases jd <;> cases ci <;> rfl

/-- C10: the success and error formatters produce output that is independent
of the configured API key (the server state is in scope for both methods but
neither reads the credential), and the configuration report masks the key to
its first 8 characters followed by an ellipsis. -/
theorem formatters_independent_of_apiKey :
    (∀ (ctx ctx2 : ServerCtx) (message : String) (data : Option Json) (summary : Option String),
        formatSuccessResponse ctx message data summary
          = formatSuccessResponse ctx2 message data summary)
  ∧ (∀ (ctx ctx2 : ServerCtx) (err : CaughtError), handleError ctx err = handleError ctx2 err)
  ∧ (∀ s : LeadMagicClientState, (getConfig s).apiKey = s.apiKey.take 8 ++ "...") :=
  ⟨fun _ _ _ _ _ => rfl, fun _ _ _ => rfl, fun _ => rfl⟩

/-- C2 counterexample: the `find_personal_email` handler, invoked with an
empty object (missing the required `profile_url` field), performs one
transport call instead of zero — its body contains no parse call — and
formats the transport result as a success response instead of a
validation-error response. -/
theorem findPersonalEmail_handler_calls_transport :
    (findPersonalEmailTool ⟨"test-api-key"⟩ (fun _ => .response 200 (Json.obj []))
        (Json.obj [])).2
      = [clientPost (serverCfg ⟨"test-api-key"⟩) "/personal-email-finder" (Json.obj [])]
  ∧ (findPersonalEmailTool ⟨"test-api-key"⟩ (fun _ => .response 200 (Json.obj []))
        (Json.obj [])).1
      = formatSuccessResponse ⟨"test-api-key"⟩ "Personal email search completed"
          (some (Json.obj [])) (some "Status: undefined, Credits used: undefined") :=
  ⟨rfl, rfl⟩

/-- C2 (amended): the `validate_email` handler parses its parameters against
`EmailValidationRequestSchema` and, when a required field is missing, returns
the formatted `ZodError` response with zero transport calls; the
`find_personal_email` handler performs no validation of its own, and its
short-circuit on invalid input happens only in the MCP SDK layer, which
checks the registered schema and answers with a validation error, with zero
transport calls, without invoking the handler. -/
theorem validation_shortCircuit :
    (∀ (ctx : ServerCtx) (t : Transport) (params : Json),
        params.getField "email" = none →
          ∃ zerr, emailValidationParse params = .error zerr
            ∧ validateEmailTool ctx t params
                = (handleError ctx (.jsError "ZodError" (zodMessage zerr)), []))
  ∧ (∀ (ctx : ServerCtx) (t : Transport) (raw : Json),
        raw.getField "profile_url" = none →
          ∃ zerr, personalEmailFinderParse raw = .error zerr
            ∧ invokePersonalEmailTool ctx t raw = (sdkValidationErrorResponse zerr, [])) := by
  constructor
  · intro ctx t params h
    cases params with
    | obj fs =>
        refine ⟨⟨⟨"email", "Required"⟩ ::
          (optStrIssue (Json.obj fs) "first_name" ++ optStrIssue (Json.obj fs) "last_name")⟩,
          ?_, ?_⟩
        · simp [emailValidationParse, emailValidationIssues, h]
        · simp [validateEmailTool, emailValidationParse, emailValidationIssues, h]
    | null => exact ⟨⟨[⟨"", "Expected object"⟩]⟩, rfl, rfl⟩
    | bool b => exact ⟨⟨[⟨"", "Expected object"⟩]⟩, rfl, rfl⟩
    | num n => exact ⟨⟨[⟨"", "Expected object"⟩]⟩, rfl, rfl⟩
    | str s => exact ⟨⟨[⟨"", "Expected object"⟩]⟩, rfl, rfl⟩
    | arr xs => exact ⟨⟨[⟨"", "Expected object"⟩]⟩, rfl, rfl⟩
  · intro ctx t raw h
    cases raw with
    | obj fs =>
        refine ⟨⟨[⟨"profile_url", "Required"⟩]⟩, ?_, ?_⟩
        · simp [personalEmailFinderParse, h]
        · simp [invokePersonalEmailTool, personalEmailFinderParse, h]
    | null => exact ⟨⟨[⟨"", "Expected object"⟩]⟩, rfl, rfl⟩
    | bool b => exact ⟨⟨[⟨"", "Expected object"⟩]⟩, rfl, rfl⟩
    | num n => exact ⟨⟨[⟨"", "Expected object"⟩]⟩, rfl, rfl⟩
    | str s => exact ⟨⟨[⟨"", "Expected object"⟩]⟩, rfl, rfl⟩
    | arr xs => exact ⟨⟨[⟨"", "Expected object"⟩]⟩, rfl, rfl⟩

/-- C2 witness: both short-circuits evaluated at the empty object. -/
theorem validation_shortCircuit_witness :
    (∃ zerr, emailValidationParse (Json.obj []) = .error zerr
      ∧ validateEmailTool ⟨"test-api-key"⟩ (fun _ => .response 200 (Json.obj [])) (Json.obj [])
          = (handleError ⟨"test-api-key"⟩ (.jsError "ZodError" (zodMessage zerr)), []))
  ∧ (∃ zerr, personalEmailFinderParse (Json.obj []) = .error zerr
      ∧ invokePersonalEmailTool ⟨"test-api-key"⟩ (fun _ => .response 200 (Json.obj []))
            (Json.obj [])
          = (sdkValidationErrorResponse zerr, [])) :=
  ⟨validation_shortCircuit.1 ⟨"test-api-key"⟩ (fun _ => .response 200 (Json.obj []))
      (Json.obj []) rfl,
    validation_shortCircuit.2 ⟨"test-api-key"⟩ (fun _ => .response 200 (Json.obj []))
      (Json.obj []) rfl⟩

theorem wellFormed_formatSuccess (ctx : ServerCtx) (message : String) (data : Option Json)
    (summary : Option String) :
    wellFormed (formatSuccessResponse ctx message data summary) = true := rfl

theorem wellFormed_handleError (ctx : ServerCtx) (err : CaughtError) :
    wellFormed (handleError ctx err) = true := rfl

/-- C9: every error caught by a tool handler — validation failure, normalized
transport failure, or any other thrown value — is turned by `handleError`
into an ordinary single-text-block MCP response, and each embedded handler
returns such a response for every input and every transport behaviour; no
per-call path rethrows. -/
theorem handlers_return_formatted_response (ctx : ServerCtx) (t : Transport)
    (params : Json) (err : CaughtError) :
    wellFormed (handleError ctx err) = true
  ∧ wellFormed (getCreditsTool ctx t).1 = true
  ∧ wellFormed (validateEmailTool ctx t params).1 = true
  ∧ wellFormed (findPersonalEmailTool ctx t params).1 = true := by
  refine ⟨wellFormed_handleError ctx err, ?_, ?_, ?_⟩
  · rcases hr : performRequest (serverCfg ctx) t
        (clientPost (serverCfg ctx) "/credits" (Json.obj [])) with e | result
    · simp [getCreditsTool, hr, wellFormed_handleError]
    · rcases hg : result.getField "credits" with _ | v
      · simp [getCreditsTool, hr, hg, wellFormed_handleError]
      · cases v <;> simp [getCreditsTool, hr, hg, wellFormed_handleError, wellFormed_formatSuccess]
  · rcases hp : emailValidationParse params with zerr | validated
    · simp [validateEmailTool, hp, wellFormed_handleError]
    · rcases hr : performRequest (serverCfg ctx) t
          (clientPost (serverCfg ctx) "/email-validate"
            (encodeEmailValidationRequest validated)) with e | result
      · simp [validateEmailTool, hp, hr, wellFormed_handleError]
      · simp [validateEmailTool, hp, hr, wellFormed_formatSuccess]
  · rcases hr : performRequest (serverCfg ctx) t
        (clientPost (serverCfg ctx) "/personal-email-finder" params) with e | result
    · simp [findPersonalEmailTool, hr, wellFormed_handleError]
    · simp [findPersonalEmailTool, hr, wellFormed_formatSuccess]

theorem mentions_guidance (ctx : ServerCtx) (e : LeadMagicError) (sub : String)
    (h1 : troubleshootingFor e ≠ "")
    (h2 : mentions (troubleshootingFor e) sub) :
    mentions (firstText (handleError ctx (.leadMagic e))) sub := by
  have hd : ("**Error Code:** " ++ e.code ++ "\n**Status:** " ++ toString e.status) ≠ "" :=
    strAppend_ne_empty _ _ (strAppend_ne_empty _ _ (strAppend_ne_empty _ _ (by decide)))
  have htext : firstText (handleError ctx (.leadMagic e))
      = ("❌ LeadMagic API Error: " ++ e.message)
        ++ (("\n" ++ ("**Error Code:** " ++ e.code ++ "\n**Status:** " ++ toString e.status))
          ++ (("\n\n" ++ troubleshootingFor e)
            ++ "\n\n💡 **Need Help?** Visit: https://github.com/LeadMagic/leadmagic-mcp/issues")) := by
    show joinTruthy ["❌ LeadMagic API Error: " ++ e.message,
      (if ("**Error Code:** " ++ e.code ++ "\n**Status:** " ++ toString e.status) = ""
        then "" else "\n" ++ ("**Error Code:** " ++ e.code ++ "\n**Status:** " ++ toString e.status)),
      (if troubleshootingFor e = "" then "" else "\n\n" ++ troubleshootingFor e),
      "\n\n💡 **Need Help?** Visit: https://github.com/LeadMagic/leadmagic-mcp/issues"] = _
    rw [if_neg hd, if_neg h1, joinTruthy_four]
  exact mentions_of_eq htext
    (mentions_left _ (mentions_left _ (mentions_right _ (mentions_left _ h2))))

/-- C6: for every structured error handed to `handleError`, the formatted
output mentions the API key when the status is 401, rate limiting when 429,
the required parameters when 400, trying again when the status is 5xx, and
the internet connection when the status is the network sentinel 0. -/
theorem handleError_guidance (ctx : ServerCtx) (e : LeadMagicError) :
    (e.status = 401 → mentions (firstText (handleError ctx (.leadMagic e))) "API key")
  ∧ (e.status = 429 → mentions (firstText (handleError ctx (.leadMagic e))) "Rate limit")
  ∧ (e.status = 400 → mentions (firstText (handleError ctx (.leadMagic e))) "required parameters")
  ∧ (500 ≤ e.status → e.status < 600 →
      mentions (firstText (handleError ctx (.leadMagic e))) "try again")
  ∧ (e.status = 0 → mentions (firstText (handleError ctx (.leadMagic e))) "internet connection") := by
  refine ⟨?_, ?_, ?_, ?_, ?_⟩
  · intro h
    have hc : e.isClientError = true := by simp [LeadMagicError.isClientError, h]
    have htr : troubleshootingFor e
        = "🔧 **Troubleshooting:** Please check your API key is valid and has sufficient permissions." := by
      simp [troubleshootingFor, hc, h]
    refine mentions_guidance ctx e _ (by rw [htr]; decide) ?_
    rw [htr]
    exact ⟨"🔧 **Troubleshooting:** Please check your ",
      " is valid and has sufficient permissions.", by decide⟩
  · intro h
    have hc : e.isClientError = true := by simp [LeadMagicError.isClientError, h]
    have htr : troubleshootingFor e
        = "🔧 **Troubleshooting:** Rate limit exceeded. Please wait a moment before making more requests." := by
      simp [troubleshootingFor, hc, h]
    refine mentions_guidance ctx e _ (by rw [htr]; decide) ?_
    rw [htr]
    exact ⟨"🔧 **Troubleshooting:** ",
      " exceeded. Please wait a moment before making more requests.", by decide⟩
  · intro h
    have hc : e.isClientError = true := by simp [LeadMagicError.isClientError, h]
    have htr : troubleshootingFor e
        = "🔧 **Troubleshooting:** Please check that all required parameters are provided and valid." := by
      simp [troubleshootingFor, hc, h]
    refine mentions_guidance ctx e _ (by rw [htr]; decide) ?_
    rw [htr]
    exact ⟨"🔧 **Troubleshooting:** Please check that all ",
      " are provided and valid.", by decide⟩
  · intro h5 h6
    have hc : e.isClientError = false := by
      simp only [LeadMagicError.isClientError, Bool.and_eq_false_iff, decide_eq_false_iff_not]
      omega
    have hs : e.isServerError = true := by
      simp only [LeadMagicError.isServerError, Bool.and_eq_true, decide_eq_true_eq]
      omega
    have htr : troubleshootingFor e
        = "🔧 **Troubleshooting:** LeadMagic server error. Please try again in a few moments." := by
      simp [troubleshootingFor, hc, hs]
    refine mentions_guidance ctx e _ (by rw [htr]; decide) ?_
    rw [htr]
    exact ⟨"🔧 **Troubleshooting:** LeadMagic server error. Please ",
      " in a few moments.", by decide⟩
  · intro h
    have hc : e.isClientError = false := by
      simp only [LeadMagicError.isClientError, Bool.and_eq_false_iff, decide_eq_false_iff_not]
      omega
    have hs : e.isServerError = false := by
      simp only [LeadMagicError.isServerError, Bool.and_eq_false_iff, decide_eq_false_iff_not]
      omega
    have hn : e.isNetworkError = true := by simp [LeadMagicError.isNetworkError, h]
    have htr : troubleshootingFor e
        = "🔧 **Troubleshooting:** Network connectivity issue. Please check your internet connection." := by
      simp [troubleshootingFor, hc, hs, hn]
    refine mentions_guidance ctx e _ (by rw [htr]; decide) ?_
    rw [htr]
    exact ⟨"🔧 **Troubleshooting:** Network connectivity issue. Please check your ",
      ".", by decide⟩

/-- C6 witness: the guidance theorem applied at concrete errors with the
statuses 401, 429, 400, 503 and 0. -/
theorem handleError_guidance_witness :
    mentions (firstText (handleError ⟨"test-api-key"⟩
      (.leadMagic ⟨401, "UNAUTHORIZED", "bad key", none⟩))) "API key"
  ∧ mentions (firstText (handleError ⟨"test-api-key"⟩
      (.leadMagic ⟨429, "RATE_LIMITED", "slow down", none⟩))) "Rate limit"
  ∧ mentions (firstText (handleError ⟨"test-api-key"⟩
      (.leadMagic ⟨400, "BAD_REQUEST", "missing", none⟩))) "required parameters"
  ∧ mentions (firstText (handleError ⟨"test-api-key"⟩
      (.leadMagic ⟨503, "UNAVAILABLE", "down", none⟩))) "try again"
  ∧ mentions (firstText (handleError ⟨"test-api-key"⟩
      (.leadMagic ⟨0, "NETWORK_ERROR", "offline", none⟩))) "internet connection" :=
  ⟨(handleError_guidance ⟨"test-api-key"⟩ ⟨401, "UNAUTHORIZED", "bad key", none⟩).1 rfl,
    (handleError_guidance ⟨"test-api-key"⟩ ⟨429, "RATE_LIMITED", "slow down", none⟩).2.1 rfl,
    (handleError_guidance ⟨"test-api-key"⟩ ⟨400, "BAD_REQUEST", "missing", none⟩).2.2.1 rfl,
    (handleError_guidance ⟨"test-api-key"⟩ ⟨503, "UNAVAILABLE", "down", none⟩).2.2.2.1
      (by decide) (by decide),
    (handleError_guidance ⟨"test-api-key"⟩ ⟨0, "NETWORK_ERROR", "offline", none⟩).2.2.2.2 rfl⟩

/-- C7: under the registered jobs-finder and employee-finder schemas, a
validated input with no `page` field gets `page` 1, one with no `per_page`
field gets `per_page` 20, and any input whose `per_page` exceeds 50 fails
validation. -/
theorem paginationDefaults :
    (∀ (j : Json) (r : JobsFinderRequest), jobsFinderParse j = .ok r →
        j.getField "page" = none → r.page = 1)
  ∧ (∀ (j : Json) (r : JobsFinderRequest), jobsFinderParse j = .ok r →
        j.getField "per_page" = none → r.per_page = 20)
  ∧ (∀ (j : Json) (n : Int), j.getField "per_page" = some (.num n) → 50 < n →
        ∃ zerr, jobsFinderParse j = .error zerr)
  ∧ (∀ (j : Json) (r : EmployeeFinderRequest), employeeFinderParse j = .ok r →
        j.getField "page" = none → r.page = 1)
  ∧ (∀ (j : Json) (r : EmployeeFinderRequest), employeeFinderParse j = .ok r →
        j.getField "per_page" = none → r.per_page = 20)
  ∧ (∀ (j : Json) (n : Int), j.getField "per_page" = some (.num n) → 50 < n →
        ∃ zerr, employeeFinderParse j = .error zerr) := by
  refine ⟨?_, ?_, ?_, ?_, ?_, ?_⟩
  · intro j r hok hfld
    cases j <;> simp [jobsFinderParse] at hok
    case obj fs =>
      rcases hI : jobsFinderIssues (Json.obj fs) with _ | ⟨i, rest⟩
      · rw [hI] at hok
        simp only [Except.ok.injEq] at hok
        rw [← hok]
        simp [getNumD, hfld]
      · rw [hI] at hok
        simp at hok
  · intro j r hok hfld
    cases j <;> simp [jobsFinderParse] at hok
    case obj fs =>
      rcases hI : jobsFinderIssues (Json.obj fs) with _ | ⟨i, rest⟩
      · rw [hI] at hok
        simp only [Except.ok.injEq] at hok
        rw [← hok]
        simp [getNumD, hfld]
      · rw [hI] at hok
        simp at hok
  · intro j n hfld hgt
    cases j <;> simp [Json.getField] at hfld
    case obj fs =>
      rcases hI : jobsFinderIssues (Json.obj fs) with _ | ⟨i, rest⟩
      · exfalso
        rcases List.append_eq_nil.mp hI with ⟨hpre, hlast⟩
        rw [perPageIssue] at hlast
        simp [Json.getField, hfld, hgt] at hlast
      · exact ⟨⟨i :: rest⟩, by simp [jobsFinderParse, hI]⟩
  · intro j r hok hfld
    cases j <;> simp [employeeFinderParse] at hok
    case obj fs =>
      rcases hI : employeeFinderIssues (Json.obj fs) with _ | ⟨i, rest⟩
      · rw [hI] at hok
        simp only [Except.ok.injEq] at hok
        rw [← hok]
        simp [getNumD, hfld]
      · rw [hI] at hok
        simp at hok
  · intro j r hok hfld
    cases j <;> simp [employeeFinderParse] at hok
    case obj fs =>
      rcases hI : employeeFinderIssues (Json.obj fs) with _ | ⟨i, rest⟩
      · rw [hI] at hok
        simp only [Except.ok.injEq] at hok
        rw [← hok]
        simp [getNumD, hfld]
      · rw [hI] at hok
        simp at hok
  · intro j n hfld hgt
    cases j <;> simp [Json.getField] at hfld
    case obj fs =>
      rcases hI : employeeFinderIssues (Json.obj fs) with _ | ⟨i, rest⟩
      · exfalso
        rcases List.append_eq_nil.mp hI with ⟨hpre, hlast⟩
        rw [perPageIssue] at hlast
        simp [Json.getField, hfld, hgt] at hlast
      · exact ⟨⟨i :: rest⟩, by simp [employeeFinderParse, hI]⟩

/-- C7 witness: the defaults and the rejection evaluated on concrete inputs. -/
theorem paginationDefaults_witness :
    (jobsFinderParse (Json.obj [])
        = .ok ⟨none, none, none, none, none, none, none, 1, 20⟩
      ∧ (⟨none, none, none, none, none, none, none, 1, 20⟩ : JobsFinderRequest).page = 1
      ∧ (⟨none, none, none, none, none, none, none, 1, 20⟩ : JobsFinderRequest).per_page = 20)
  ∧ (∃ zerr, jobsFinderParse (Json.obj [("per_page", Json.num 51)]) = .error zerr)
  ∧ (employeeFinderParse (Json.obj [("company_name", Json.str "Acme")])
        = .ok ⟨"Acme", 1, 20⟩
      ∧ (⟨"Acme", 1, 20⟩ : EmployeeFinderRequest).page = 1
      ∧ (⟨"Acme", 1, 20⟩ : EmployeeFinderRequest).per_page = 20)
  ∧ (∃ zerr, employeeFinderParse
        (Json.obj [("company_name", Json.str "Acme"), ("per_page", Json.num 51)])
        = .error zerr) :=
  ⟨⟨rfl,
      paginationDefaults.1 (Json.obj []) ⟨none, none, none, none, none, none, none, 1, 20⟩
        rfl rfl,
      paginationDefaults.2.1 (Json.obj []) ⟨none, none, none, none, none, none, none, 1, 20⟩
        rfl rfl⟩,
    paginationDefaults.2.2.1 (Json.obj [("per_page", Json.num 51)]) 51 rfl (by decide),
    ⟨rfl,
      paginationDefaults.2.2.2.1 (Json.obj [("company_name", Json.str "Acme")])
        ⟨"Acme", 1, 20⟩ rfl rfl,
      paginationDefaults.2.2.2.2.1 (Json.obj [("company_name", Json.str "Acme")])
        ⟨"Acme", 1, 20⟩ rfl rfl⟩,
    paginationDefaults.2.2.2.2.2
      (Json.obj [("company_name", Json.str "Acme"), ("per_page", Json.num 51)]) 51 rfl
      (by decide)⟩
